import Mathlib

/-!
Shallow embedding of `internal/auth/auth.go` from the tinyauth repository.

Conventions of the embedding:
* Go `time.Time` values are modelled as `Int` epoch seconds; the zero value
  `time.Time{}` is epoch `0` (far in the past for any realistic clock).
* The gorilla `sessions.Session.Values` map (string keys to untyped values)
  is modelled as an association list of `String × SValue`, where `SValue`
  covers exactly the three dynamic types the code stores and asserts
  (`string`, `int64`, `bool`).
* External collaborators that are not part of this repository's source
  (gorilla cookie encoding, bcrypt, the LDAP client, `regexp.Compile`,
  `utils.FilterIP`, `utils.CheckWhitelist`) appear as explicit function
  parameters, so every theorem is parametric in their behaviour.
-/

namespace Tinyauth

/-- Dynamic value stored in `session.Values`, mirroring the three Go types
the code writes and type-asserts: `string`, `int64` and `bool`. -/
inductive SValue where
  | str (s : String)
  | int (i : Int)
  | bool (b : Bool)
deriving DecidableEq, Repr

/-- The `session.Values` map, as an association list. -/
abbrev Values := List (String × SValue)

/-- Lookup in `session.Values` (Go map indexing). -/
def lookupValue : Values → String → Option SValue
  | [], _ => none
  | (k, v) :: rest, key => if k = key then some v else lookupValue rest key

/-- Go type assertion `v.(string)`: `some s` iff the value is present and a string. -/
def asString : Option SValue → Option String
  | some (.str s) => some s
  | _ => none

/-- Go type assertion `v.(int64)`. -/
def asInt : Option SValue → Option Int
  | some (.int i) => some i
  | _ => none

/-- Go type assertion `v.(bool)`. -/
def asBool : Option SValue → Option Bool
  | some (.bool b) => some b
  | _ => none

/-- `types.SessionCookie` as used by `auth.go`: the six data fields the code
copies in and out of the session (the stored expiry lives only in the
`session.Values` map, not in the struct the reader returns). -/
structure SessionCookie where
  username : String
  name : String
  email : String
  provider : String
  totpPending : Bool
  oauthGroups : String
deriving DecidableEq, Repr

/-- Go zero value `types.SessionCookie{}`. -/
def emptySessionCookie : SessionCookie :=
  { username := "", name := "", email := "", provider := ""
    totpPending := false, oauthGroups := "" }

/-- The fields of `types.AuthConfig` that the verified functions consult. -/
structure AuthConfig where
  sessionExpiry : Int
  loginMaxRetries : Int
  loginTimeout : Int
deriving DecidableEq, Repr

/-- Expiry duration chosen by `CreateSessionCookie` (auth.go:252-259):
3600 seconds when the session is TOTP-pending, else the configured
session duration. -/
def sessionExpirySeconds (config : AuthConfig) (data : SessionCookie) : Int :=
  if data.totpPending then 3600 else config.sessionExpiry

/-- The seven `session.Values` entries written by `CreateSessionCookie`
(auth.go:262-268), with `now` the creation instant. -/
def CreateSessionCookieValues (config : AuthConfig) (data : SessionCookie) (now : Int) : Values :=
  [("username", .str data.username),
   ("name", .str data.name),
   ("email", .str data.email),
   ("provider", .str data.provider),
   ("expiry", .int (now + sessionExpirySeconds config data)),
   ("totpPending", .bool data.totpPending),
   ("oauthGroups", .str data.oauthGroups)]

/-- The field-extraction and expiry logic of `GetSessionCookie`
(auth.go:319-359), once a session was obtained. Returns the cookie record
together with a flag telling whether `DeleteSessionCookie` was invoked
(the invalid-field and expired branches delete the cookie). -/
def ReadSessionCookieValues (values : Values) (now : Int) : SessionCookie × Bool :=
  match asString (lookupValue values "username"), asString (lookupValue values "email"),
        asString (lookupValue values "name"), asString (lookupValue values "provider"),
        asInt (lookupValue values "expiry"), asBool (lookupValue values "totpPending"),
        asString (lookupValue values "oauthGroups") with
  | some username, some email, some name, some provider,
    some expiry, some totpPending, some oauthGroups =>
      if now > expiry then
        (emptySessionCookie, true)
      else
        ({ username := username, name := name, email := email, provider := provider
           totpPending := totpPending, oauthGroups := oauthGroups }, false)
  | _, _, _, _, _, _, _ => (emptySessionCookie, true)

/-- `GetSession` (auth.go:51-72), parametric in the two `Store.Get` decode
attempts (`first` before, `second` after the cookie has been cleared).
Returns whether the cookie was cleared by `c.SetCookie(..., -1, ...)` and
the final outcome: on a first-attempt failure the cookie is cleared and the
decode retried once; a second failure propagates that error. -/
def GetSession (first second : Except String Values) : Bool × Except String Values :=
  match first with
  | .ok session => (false, .ok session)
  | .error _ =>
      match second with
      | .ok session => (true, .ok session)
      | .error e => (true, .error e)

/-- Full result of `GetSessionCookie` (auth.go:307-360):
the returned record, the returned error, whether `GetSession` cleared the
raw cookie, and whether `DeleteSessionCookie` was invoked on an
invalid/expired record. -/
def GetSessionCookie (first second : Except String Values) (now : Int) :
    SessionCookie × Option String × Bool × Bool :=
  match GetSession first second with
  | (cleared, .error e) => (emptySessionCookie, some e, cleared, false)
  | (cleared, .ok values) =>
      let r := ReadSessionCookieValues values now
      (r.1, none, cleared, r.2)

/-! ## Rate limiter (auth.go:172-234) -/

/-- `types.LoginAttempt`, with timestamps as epoch seconds; `time.Time{}`
is `0`. -/
structure LoginAttempt where
  failedAttempts : Int
  lastAttempt : Int
  lockedUntil : Int
deriving DecidableEq, Repr

/-- Go zero value `types.LoginAttempt{}`. -/
def LoginAttempt.empty : LoginAttempt :=
  { failedAttempts := 0, lastAttempt := 0, lockedUntil := 0 }

/-- The `auth.LoginAttempts` map. -/
abbrev AttemptMap := String → Option LoginAttempt

/-- Go map store `auth.LoginAttempts[identifier] = attempt`. -/
def storeAttempt (m : AttemptMap) (identifier : String) (a : LoginAttempt) : AttemptMap :=
  fun k => if k = identifier then some a else m k

/-- `IsAccountLocked` (auth.go:173-197): `(locked, remainingSeconds)`.
`attempt.LockedUntil.After(time.Now())` is the strict comparison
`lockedUntil > now`, and `int(time.Until(lockedUntil).Seconds())` is
`lockedUntil - now` in the whole-second model. -/
def IsAccountLocked (config : AuthConfig) (m : AttemptMap) (identifier : String)
    (now : Int) : Bool × Int :=
  if config.loginMaxRetries ≤ 0 ∨ config.loginTimeout ≤ 0 then (false, 0)
  else
    match m identifier with
    | none => (false, 0)
    | some attempt =>
        if attempt.lockedUntil > now then (true, attempt.lockedUntil - now)
        else (false, 0)

/-- `RecordLoginAttempt` (auth.go:200-234) as a map transformer, with `now`
the instant of the call. The record is fetched or created first, its
`lastAttempt` always updated; success resets the counters, failure
increments `failedAttempts` and sets `lockedUntil = now + loginTimeout`
once the count reaches `loginMaxRetries`. -/
def RecordLoginAttempt (config : AuthConfig) (m : AttemptMap) (identifier : String)
    (success : Bool) (now : Int) : AttemptMap :=
  if config.loginMaxRetries ≤ 0 ∨ config.loginTimeout ≤ 0 then m
  else
    let attempt := (m identifier).getD LoginAttempt.empty
    let attempt := { attempt with lastAttempt := now }
    if success then
      storeAttempt m identifier { attempt with failedAttempts := 0, lockedUntil := 0 }
    else
      let attempt := { attempt with failedAttempts := attempt.failedAttempts + 1 }
      let attempt :=
        if attempt.failedAttempts ≥ config.loginMaxRetries then
          { attempt with lockedUntil := now + config.loginTimeout }
        else attempt
      storeAttempt m identifier attempt

/-- `n` consecutive failed `RecordLoginAttempt` calls for `identifier`, all
at instant `t`. -/
def iterateFailures (config : AuthConfig) (identifier : String) (t : Int) :
    Nat → AttemptMap → AttemptMap
  | 0, m => m
  | n + 1, m => RecordLoginAttempt config (iterateFailures config identifier t n m) identifier false t

/-! ## Credential verification (auth.go:108-170) -/

/-- `types.User`: a local user with a bcrypt password hash. -/
structure User where
  username : String
  password : String
deriving DecidableEq, Repr

/-- `types.UserSearch`: resolved identity plus its backend type string
("local", "ldap", or empty/unknown). -/
structure UserSearch where
  username : String
  type : String
deriving DecidableEq, Repr

/-- `GetLocalUser` (auth.go:152-165): first user with a matching username,
else the zero `types.User{}`. -/
def GetLocalUser : List User → String → User
  | [], _ => { username := "", password := "" }
  | user :: rest, username =>
      if user.username = username then user else GetLocalUser rest username

/-- The LDAP client handle: its configured service-account credentials and
the observable outcome of a `Bind(dn, password)` call (`true` = success).
The network behaviour is external to this repository, hence parametric. -/
structure LDAPModel where
  bindDN : String
  bindPassword : String
  bind : String → String → Bool

/-- `VerifyUser` (auth.go:108-150), parametric in the bcrypt comparison
`checkHash hash password` used by `CheckPassword` (auth.go:167-170) and in
the optional LDAP client. The "ldap" case binds as the user, then re-binds
as the service account, and fails closed if either bind fails; with no
LDAP client configured, or an unknown type, the function returns false. -/
def VerifyUser (checkHash : String → String → Bool) (users : List User)
    (ldap : Option LDAPModel) (search : UserSearch) (password : String) : Bool :=
  match search.type with
  | "local" => checkHash (GetLocalUser users search.username).password password
  | "ldap" =>
      match ldap with
      | some client =>
          if client.bind search.username password then
            if client.bind client.bindDN client.bindPassword then true
            else false
          else false
      | none => false
  | _ => false

/-! ## Access policy (auth.go:380-494) -/

/-- One pass of the loops in `CheckIP` (auth.go:460-483): scan a list of
IP/CIDR entries against `ip`, where `filter entry ip = none` models a
`utils.FilterIP` parse error (the entry is skipped and the scan continues)
and `some b` a successful containment test. Returns whether some entry
matched. -/
def ipListMatch (filter : String → String → Option Bool) (ip : String) :
    List String → Bool
  | [] => false
  | entry :: rest =>
      match filter entry ip with
      | none => ipListMatch filter ip rest
      | some true => true
      | some false => ipListMatch filter ip rest

/-- `CheckIP` (auth.go:455-494), parametric in `utils.FilterIP`: deny on any
block-list match, else allow on any allow-list match, else deny iff the
allow list is non-empty. -/
def CheckIP (filter : String → String → Option Bool) (ip : String)
    (block allow : List String) : Bool :=
  if ipListMatch filter ip block then false
  else if ipListMatch filter ip allow then true
  else if allow.length > 0 then false
  else true

/-- `AuthEnabled` (auth.go:410-437), parametric in `regexp.Compile`
(`.error e` models a compile failure, `.ok re` a compiled matcher).
Returns (auth required?, error to log): empty pattern or compile error
means auth stays enabled, a URI match disables it. -/
def AuthEnabled (compile : String → Except String (String → Bool))
    (allowed uri : String) : Bool × Option String :=
  if allowed = "" then (true, none)
  else
    match compile allowed with
    | .error e => (true, some e)
    | .ok re => if re uri then (false, none) else (true, none)

/-- Accumulator pass of `splitComma`: `acc` holds the reversed characters
of the piece being built. -/
def splitCommaAux : List Char → List Char → List String
  | acc, [] => [String.mk acc.reverse]
  | acc, c :: rest =>
      if c = ',' then String.mk acc.reverse :: splitCommaAux [] rest
      else splitCommaAux (c :: acc) rest

/-- Go `strings.Split(s, ",")`: the substrings of `s` between commas, with
`""` split to `[""]` (one empty piece), as a structurally recursive
character scan. -/
def splitComma (s : String) : List String :=
  splitCommaAux [] s.data

/-- `OAuthGroup` (auth.go:380-408), parametric in `utils.CheckWhitelist`
(`checkWhitelist requiredGroups group`): empty required-groups label or a
non-generic provider allows; otherwise the comma-split OAuth groups are
scanned for any whitelisted one. -/
def OAuthGroup (checkWhitelist : String → String → Bool)
    (requiredGroups provider oauthGroups : String) : Bool :=
  if requiredGroups = "" then true
  else if provider ≠ "generic" then true
  else (splitComma oauthGroups).any fun group => checkWhitelist requiredGroups group

/-! ## Helper lemmas -/

/-- Reading back the values written by `CreateSessionCookieValues`:
the stored record is returned verbatim while `now` has not passed the
stored expiry strictly, and the empty record (with the cookie deleted)
once it has. -/
theorem ReadSessionCookieValues_create (config : AuthConfig) (data : SessionCookie)
    (t now : Int) :
    ReadSessionCookieValues (CreateSessionCookieValues config data t) now =
      if now > t + sessionExpirySeconds config data then (emptySessionCookie, true)
      else (data, false) := by
  simp [ReadSessionCookieValues, CreateSessionCookieValues, lookupValue,
    asString, asInt, asBool]

/-! ## Claim theorems -/

/-- C1 counterexample: the claim "once now ≥ expiresAt, GetSessionCookie
returns the empty record and clears the cookie" fails at the boundary
`now = expiresAt`. With session duration 100 and creation at 0, a read at
instant 100 (so `now ≥ expiresAt`) still returns the full record without
deleting the cookie, and that record is non-empty although its `expiresAt`
is not strictly in the future. -/
theorem getSessionCookie_boundary_counterexample :
    ReadSessionCookieValues
        (CreateSessionCookieValues ⟨100, 3, 60⟩
          ⟨"alice", "Alice", "a@b.c", "generic", false, "g1"⟩ 0) 100
      = (⟨"alice", "Alice", "a@b.c", "generic", false, "g1"⟩, false) ∧
    (⟨"alice", "Alice", "a@b.c", "generic", false, "g1"⟩ : SessionCookie)
      ≠ emptySessionCookie ∧
    (0 : Int) + sessionExpirySeconds ⟨100, 3, 60⟩
        ⟨"alice", "Alice", "a@b.c", "generic", false, "g1"⟩ ≤ 100 := by
  refine ⟨by decide, by decide, by decide⟩

/-- C1 (amended): a SessionRecord round-trips through create-then-read
unchanged provided `now ≤ expiresAt`; once `now > expiresAt` (strictly),
the read returns the empty record and deletes the cookie; consequently a
non-empty read result has `now ≤ expiresAt` (the stored expiry has not
strictly passed) at the instant of return. -/
theorem sessionCookie_roundtrip_amended (config : AuthConfig) (data : SessionCookie)
    (t now : Int) :
    (now ≤ t + sessionExpirySeconds config data →
      ReadSessionCookieValues (CreateSessionCookieValues config data t) now
        = (data, false)) ∧
    (t + sessionExpirySeconds config data < now →
      ReadSessionCookieValues (CreateSessionCookieValues config data t) now
        = (emptySessionCookie, true)) ∧
    ((ReadSessionCookieValues (CreateSessionCookieValues config data t) now).1
        ≠ emptySessionCookie →
      now ≤ t + sessionExpirySeconds config data) := by
  rw [ReadSessionCookieValues_create]
  refine ⟨fun h => ?_, fun h => ?_, fun h => ?_⟩
  · rw [if_neg (by omega)]
  · rw [if_pos (by omega)]
  · by_contra hn
    rw [if_pos (by omega)] at h
    exact h rfl

/-- C1 witness: the amended round-trip at a concrete record, session
duration 100, creation instant 0 and read instant 50. -/
theorem sessionCookie_roundtrip_amended_witness :
    ReadSessionCookieValues
        (CreateSessionCookieValues ⟨100, 3, 60⟩
          ⟨"alice", "Alice", "a@b.c", "generic", false, "g1"⟩ 0) 50
      = (⟨"alice", "Alice", "a@b.c", "generic", false, "g1"⟩, false) :=
  (sessionCookie_roundtrip_amended ⟨100, 3, 60⟩
    ⟨"alice", "Alice", "a@b.c", "generic", false, "g1"⟩ 0 50).1 (by decide)

/-- C2 counterexample: when both decode attempts fail, `GetSessionCookie`
returns the empty record together with the second decode error — the error
is propagated to the caller, refuting "returns the empty session record
with no error". -/
theorem getSessionCookie_unreadable_counterexample :
    GetSessionCookie (.error "bad1") (.error "bad2") 0
      = (emptySessionCookie, some "bad2", true, false) ∧
    (GetSessionCookie (.error "bad1") (.error "bad2") 0).2.1 ≠ none := by
  refine ⟨rfl, by decide⟩

/-- C2 (amended): on a first decode failure the cookie is cleared and the
decode retried once; if the retry also fails, the read returns the empty
session record together with the decode error (the error is returned to
the caller, not suppressed); if the retry succeeds the session is
processed normally from the retried values; a first-attempt success never
clears the cookie. -/
theorem getSessionCookie_unreadable_amended (e₁ e₂ : String) (values : Values)
    (second : Except String Values) (now : Int) :
    GetSessionCookie (.error e₁) (.error e₂) now
      = (emptySessionCookie, some e₂, true, false) ∧
    GetSessionCookie (.error e₁) (.ok values) now
      = ((ReadSessionCookieValues values now).1, none, true,
         (ReadSessionCookieValues values now).2) ∧
    GetSessionCookie (.ok values) second now
      = ((ReadSessionCookieValues values now).1, none, false,
         (ReadSessionCookieValues values now).2) :=
  ⟨rfl, rfl, rfl⟩

/-- C7: a `totpPending = true` session stores expiry `now + 3600` whatever
the configured session duration; a `totpPending = false` session stores
`now + sessionExpiry`; every other field is copied verbatim into the
session values. -/
theorem createSessionCookie_expiry_spec (config : AuthConfig) (data : SessionCookie)
    (now : Int) :
    (data.totpPending = true →
      lookupValue (CreateSessionCookieValues config data now) "expiry"
        = some (.int (now + 3600))) ∧
    (data.totpPending = false →
      lookupValue (CreateSessionCookieValues config data now) "expiry"
        = some (.int (now + config.sessionExpiry))) ∧
    lookupValue (CreateSessionCookieValues config data now) "username"
      = some (.str data.username) ∧
    lookupValue (CreateSessionCookieValues config data now) "name"
      = some (.str data.name) ∧
    lookupValue (CreateSessionCookieValues config data now) "email"
      = some (.str data.email) ∧
    lookupValue (CreateSessionCookieValues config data now) "provider"
      = some (.str data.provider) ∧
    lookupValue (CreateSessionCookieValues config data now) "totpPending"
      = some (.bool data.totpPending) ∧
    lookupValue (CreateSessionCookieValues config data now) "oauthGroups"
      = some (.str data.oauthGroups) := by
  refine ⟨fun h => ?_, fun h => ?_, ?_, ?_, ?_, ?_, ?_, ?_⟩ <;>
    simp [CreateSessionCookieValues, lookupValue, sessionExpirySeconds, *]

/-- C7 witness: with configured duration 100 but a TOTP-pending record
created at instant 3, the stored expiry is 3603, not 103. -/
theorem createSessionCookie_expiry_spec_witness :
    lookupValue
        (CreateSessionCookieValues ⟨100, 3, 60⟩ ⟨"a", "n", "e", "p", true, "g"⟩ 3)
        "expiry" = some (.int 3603) :=
  (createSessionCookie_expiry_spec ⟨100, 3, 60⟩ ⟨"a", "n", "e", "p", true, "g"⟩ 3).1 rfl

/-- Storing a record and reading it back at the same key. -/
theorem storeAttempt_same (m : AttemptMap) (identifier : String) (a : LoginAttempt) :
    storeAttempt m identifier a identifier = some a := by
  simp [storeAttempt]

/-- `n ≥ 1` consecutive failures at instant `t`, starting from an identifier
with no record, yield a record with `failedAttempts = n`, `lastAttempt = t`,
and `lockedUntil = t + loginTimeout` exactly once the count has reached
`loginMaxRetries`. -/
theorem iterateFailures_apply (config : AuthConfig) (identifier : String) (t : Int)
    (m : AttemptMap) (hmax : 0 < config.loginMaxRetries) (htm : 0 < config.loginTimeout)
    (hm : m identifier = none) :
    ∀ n : Nat, 1 ≤ n →
      (iterateFailures config identifier t n m) identifier =
        some ⟨(n : Int), t,
          if config.loginMaxRetries ≤ (n : Int) then t + config.loginTimeout else 0⟩ := by
  have hcond : ¬(config.loginMaxRetries ≤ 0 ∨ config.loginTimeout ≤ 0) := by omega
  intro n hn
  induction n with
  | zero => omega
  | succ k ih =>
    rcases Nat.eq_or_lt_of_le hn with h1 | h1
    · have hk : k = 0 := by omega
      subst hk
      simp only [iterateFailures, RecordLoginAttempt, hm, hcond, if_false,
        Bool.false_eq_true, Option.getD_none, LoginAttempt.empty]
      rw [storeAttempt_same]
      split_ifs <;> simp only [Option.some_inj, LoginAttempt.mk.injEq, true_and,
        and_true, eq_self_iff_true] <;> omega
    · have hk : 1 ≤ k := by omega
      have ihk := ih hk
      simp only [iterateFailures, RecordLoginAttempt, ihk, hcond, if_false,
        Bool.false_eq_true, Option.getD_some]
      rw [storeAttempt_same]
      split_ifs <;> simp only [Option.some_inj, LoginAttempt.mk.injEq, true_and,
        and_true, eq_self_iff_true] <;> omega

/-- C3: with rate limiting enabled, an identifier with no prior record is
locked after `loginMaxRetries` consecutive failed attempts at instant `t`:
its record holds `lockedUntil = t + loginTimeout`, and `IsAccountLocked`
checked at any `now` before that bound reports Locked with
`remainingSeconds = lockedUntil - now > 0`. A single successful
`RecordLoginAttempt` (from any state `m'`) resets the failed count and
clears `lockedUntil`, so `IsAccountLocked` reports Open afterwards. -/
theorem rateLimiter_lock_and_reset (config : AuthConfig) (identifier : String)
    (m m' : AttemptMap) (t now t' now' : Int)
    (hmax : 0 < config.loginMaxRetries) (htm : 0 < config.loginTimeout)
    (hm : m identifier = none) (hnow : now < t + config.loginTimeout)
    (hnow' : 0 ≤ now') :
    (iterateFailures config identifier t config.loginMaxRetries.toNat m) identifier
      = some ⟨config.loginMaxRetries, t, t + config.loginTimeout⟩ ∧
    IsAccountLocked config
        (iterateFailures config identifier t config.loginMaxRetries.toNat m)
        identifier now
      = (true, (t + config.loginTimeout) - now) ∧
    0 < (t + config.loginTimeout) - now ∧
    (RecordLoginAttempt config m' identifier true t') identifier
      = some ⟨0, t', 0⟩ ∧
    IsAccountLocked config (RecordLoginAttempt config m' identifier true t')
        identifier now'
      = (false, 0) := by
  have hcond : ¬(config.loginMaxRetries ≤ 0 ∨ config.loginTimeout ≤ 0) := by omega
  have hcast : (config.loginMaxRetries.toNat : Int) = config.loginMaxRetries := by omega
  have hrec := iterateFailures_apply config identifier t m hmax htm hm
    config.loginMaxRetries.toNat (by omega)
  rw [hcast, if_pos le_rfl] at hrec
  have hsucc : (RecordLoginAttempt config m' identifier true t') identifier
      = some ⟨0, t', 0⟩ := by
    simp [RecordLoginAttempt, storeAttempt, hcond]
  refine ⟨hrec, ?_, by omega, hsucc, ?_⟩
  · simp only [IsAccountLocked, hcond, if_false, hrec]
    rw [if_pos (by omega)]
  · simp only [IsAccountLocked, hcond, if_false, hsucc]
    rw [if_neg (by omega)]

/-- C3 witness: `maxRetries = 3`, `lockoutWindow = 60`; three failures for
"alice" at instant 10 lock the account, a check at instant 30 reports
40 remaining seconds, and a successful attempt resets to Open. -/
theorem rateLimiter_lock_and_reset_witness :
    IsAccountLocked ⟨3600, 3, 60⟩
        (iterateFailures ⟨3600, 3, 60⟩ "alice" 10 (3 : Int).toNat (fun _ => none))
        "alice" 30
      = (true, 40) ∧
    IsAccountLocked ⟨3600, 3, 60⟩
        (RecordLoginAttempt ⟨3600, 3, 60⟩ (fun _ => none) "alice" true 45)
        "alice" 50
      = (false, 0) := by
  have h := rateLimiter_lock_and_reset ⟨3600, 3, 60⟩ "alice"
    (fun _ => none) (fun _ => none) 10 30 45 50
    (by decide) (by decide) rfl (by decide) (by decide)
  exact ⟨h.2.1, h.2.2.2.2⟩

/-- C9 counterexample: with rate limiting enabled (`maxRetries = 3`,
window 60), a successful `RecordLoginAttempt` for "alice", who has no
record, DOES create a record (`failedAttempts = 0`, `lastAttempt = 5`,
`lockedUntil` cleared) — refuting "an attempt record is created lazily on
the first failed attempt only". -/
theorem recordLoginAttempt_success_creates_counterexample :
    (fun _ => (none : Option LoginAttempt)) "alice" = none ∧
    (RecordLoginAttempt ⟨3600, 3, 60⟩ (fun _ => none) "alice" true 5) "alice"
      = some ⟨0, 5, 0⟩ := by
  refine ⟨rfl, by decide⟩

/-- C9 (amended): with rate limiting enabled, an attempt record is created
lazily on the first attempt of either outcome: a successful call on an
identifier with no record creates a record with `failedAttempts = 0` and no
lock; with rate limiting disabled no record is ever created. -/
theorem recordLoginAttempt_creation_amended (config : AuthConfig) (m : AttemptMap)
    (identifier : String) (now : Int) (hm : m identifier = none) :
    (0 < config.loginMaxRetries → 0 < config.loginTimeout →
      (RecordLoginAttempt config m identifier true now) identifier
        = some ⟨0, now, 0⟩) ∧
    (∀ success, (config.loginMaxRetries ≤ 0 ∨ config.loginTimeout ≤ 0) →
      (RecordLoginAttempt config m identifier success now) identifier = none) := by
  constructor
  · intro h1 h2
    have hcond : ¬(config.loginMaxRetries ≤ 0 ∨ config.loginTimeout ≤ 0) := by omega
    simp [RecordLoginAttempt, storeAttempt, hcond]
  · intro success hdis
    simp [RecordLoginAttempt, hdis, hm]

/-- C9 witness: the amended creation behaviour at `maxRetries = 3`,
window 60, identifier "alice", instant 5. -/
theorem recordLoginAttempt_creation_amended_witness :
    (RecordLoginAttempt ⟨3600, 3, 60⟩ (fun _ => none) "alice" true 5) "alice"
      = some ⟨0, 5, 0⟩ ∧
    (RecordLoginAttempt ⟨3600, 0, 60⟩ (fun _ => none) "alice" true 5) "alice"
      = none :=
  ⟨(recordLoginAttempt_creation_amended ⟨3600, 3, 60⟩ (fun _ => none) "alice" 5 rfl).1
      (by decide) (by decide),
   (recordLoginAttempt_creation_amended ⟨3600, 0, 60⟩ (fun _ => none) "alice" 5 rfl).2
      true (by decide)⟩

/-- C10: the failed-attempt count survives an elapsed lockout window. For an
identifier whose `failedAttempts` has reached `loginMaxRetries` and whose
`lockedUntil` has passed (so `IsAccountLocked` reports Open), a single
further failed attempt at instant `t` sets `lockedUntil = t + loginTimeout`,
re-locking the identifier immediately: `IsAccountLocked` before that bound
reports Locked with the corresponding remaining seconds. -/
theorem rateLimiter_relock_after_window (config : AuthConfig) (m : AttemptMap)
    (identifier : String) (c l lu now₀ t now' : Int)
    (hmax : 0 < config.loginMaxRetries) (htm : 0 < config.loginTimeout)
    (hm : m identifier = some ⟨c, l, lu⟩) (hc : config.loginMaxRetries ≤ c)
    (hlu : lu ≤ now₀) (hnow' : now' < t + config.loginTimeout) :
    IsAccountLocked config m identifier now₀ = (false, 0) ∧
    (RecordLoginAttempt config m identifier false t) identifier
      = some ⟨c + 1, t, t + config.loginTimeout⟩ ∧
    IsAccountLocked config (RecordLoginAttempt config m identifier false t)
        identifier now'
      = (true, (t + config.loginTimeout) - now') := by
  have hcond : ¬(config.loginMaxRetries ≤ 0 ∨ config.loginTimeout ≤ 0) := by omega
  have hrec : (RecordLoginAttempt config m identifier false t) identifier
      = some ⟨c + 1, t, t + config.loginTimeout⟩ := by
    simp only [RecordLoginAttempt, hm, hcond, if_false, Bool.false_eq_true,
      Option.getD_some]
    rw [if_pos (by omega : c + 1 ≥ config.loginMaxRetries), storeAttempt_same]
  refine ⟨?_, hrec, ?_⟩
  · simp only [IsAccountLocked, hcond, if_false, hm]
    rw [if_neg (by omega)]
  · simp only [IsAccountLocked, hcond, if_false, hrec]
    rw [if_pos (by omega)]

/-- C10 witness: "alice" with 3 failures and an expired lock (`lockedUntil
= 70 ≤ 100`) reads Open at instant 100; one further failure at 100 re-locks
until 160, and a check at 130 reports 30 remaining seconds. -/
theorem rateLimiter_relock_after_window_witness :
    IsAccountLocked ⟨3600, 3, 60⟩
        (fun k => if k = "alice" then some ⟨3, 10, 70⟩ else none) "alice" 100
      = (false, 0) ∧
    IsAccountLocked ⟨3600, 3, 60⟩
        (RecordLoginAttempt ⟨3600, 3, 60⟩
          (fun k => if k = "alice" then some ⟨3, 10, 70⟩ else none) "alice" false 100)
        "alice" 130
      = (true, 30) := by
  have h := rateLimiter_relock_after_window ⟨3600, 3, 60⟩
    (fun k => if k = "alice" then some ⟨3, 10, 70⟩ else none) "alice"
    3 10 70 100 100 130 (by decide) (by decide) (by decide) (by decide)
    (by decide) (by decide)
  exact ⟨h.1, h.2.2⟩

/-- C4: for a directory ("ldap") identity, a successful user bind followed
by a failed service-account re-bind yields `VerifyUser = false` (fail
closed), and a failed user bind also yields false. -/
theorem verifyUser_ldap_fail_closed (checkHash : String → String → Bool)
    (users : List User) (client : LDAPModel) (search : UserSearch) (password : String)
    (htype : search.type = "ldap") :
    (client.bind search.username password = true →
      client.bind client.bindDN client.bindPassword = false →
      VerifyUser checkHash users (some client) search password = false) ∧
    (client.bind search.username password = false →
      VerifyUser checkHash users (some client) search password = false) := by
  obtain ⟨username, type⟩ := search
  simp only at htype
  subst htype
  constructor
  · intro h1 h2
    simp [VerifyUser, h1, h2]
  · intro h1
    simp [VerifyUser, h1]

/-- C4 witness: a directory where the user bind for `cn=alice` succeeds but
the service account `cn=admin` cannot re-bind, and one where the user bind
itself fails; both verifications report false. -/
theorem verifyUser_ldap_fail_closed_witness :
    VerifyUser (fun _ _ => false) []
        (some ⟨"cn=admin", "adminpw", fun dn p => dn == "cn=alice" && p == "s3cret"⟩)
        ⟨"cn=alice", "ldap"⟩ "s3cret" = false ∧
    VerifyUser (fun _ _ => false) []
        (some ⟨"cn=admin", "adminpw", fun dn p => dn == "cn=alice" && p == "s3cret"⟩)
        ⟨"cn=alice", "ldap"⟩ "wrongpw" = false :=
  ⟨(verifyUser_ldap_fail_closed (fun _ _ => false) []
      ⟨"cn=admin", "adminpw", fun dn p => dn == "cn=alice" && p == "s3cret"⟩
      ⟨"cn=alice", "ldap"⟩ "s3cret" rfl).1 (by decide) (by decide),
   (verifyUser_ldap_fail_closed (fun _ _ => false) []
      ⟨"cn=admin", "adminpw", fun dn p => dn == "cn=alice" && p == "s3cret"⟩
      ⟨"cn=alice", "ldap"⟩ "wrongpw" rfl).2 (by decide)⟩

/-- A list scan matches iff some entry filters to `some true`: parse
failures (`none`) and non-matches (`some false`) are skipped without
aborting the scan or counting as a match. -/
theorem ipListMatch_eq_true_iff (filter : String → String → Option Bool) (ip : String)
    (l : List String) :
    ipListMatch filter ip l = true ↔ ∃ entry ∈ l, filter entry ip = some true := by
  induction l with
  | nil => simp [ipListMatch]
  | cons entry rest ih =>
    simp only [ipListMatch, List.mem_cons]
    cases hf : filter entry ip with
    | none =>
      rw [ih]
      constructor
      · rintro ⟨e, he, hm⟩
        exact ⟨e, Or.inr he, hm⟩
      · rintro ⟨e, he | he, hm⟩
        · rw [he] at hm
          rw [hm] at hf
          exact absurd hf (by simp)
        · exact ⟨e, he, hm⟩
    | some b =>
      cases b with
      | true =>
        exact iff_of_true rfl ⟨entry, Or.inl rfl, hf⟩
      | false =>
        rw [ih]
        constructor
        · rintro ⟨e, he, hm⟩
          exact ⟨e, Or.inr he, hm⟩
        · rintro ⟨e, he | he, hm⟩
          · rw [he] at hm
            rw [hm] at hf
            exact absurd hf (by simp)
          · exact ⟨e, he, hm⟩

/-- C5: `CheckIP` allows a client IP exactly when no block-list entry
matches it (parse failures never match) and either some allow-list entry
matches or the allow list is empty. In particular a block-list match denies
even when the same address matches the allow list, parse failures in
either list are skipped without aborting the scan, a non-empty allow list
with no match denies, and an empty allow list allows by default. -/
theorem checkIP_spec (filter : String → String → Option Bool) (ip : String)
    (block allow : List String) :
    CheckIP filter ip block allow = true ↔
      ((∀ entry ∈ block, filter entry ip ≠ some true) ∧
       ((∃ entry ∈ allow, filter entry ip = some true) ∨ allow = [])) := by
  simp only [CheckIP]
  split_ifs with h1 h2 h3
  · rw [ipListMatch_eq_true_iff] at h1
    obtain ⟨e, he, hm⟩ := h1
    simp only [false_iff]
    rintro ⟨hb, _⟩
    exact hb e he hm
  · rw [ipListMatch_eq_true_iff] at h2
    simp only [true_iff]
    rw [ipListMatch_eq_true_iff] at h1
    push_neg at h1
    exact ⟨h1, Or.inl h2⟩
  · simp only [false_iff]
    rintro ⟨-, hallow | hallow⟩
    · rw [ipListMatch_eq_true_iff] at h2
      exact h2 hallow
    · rw [hallow] at h3
      simp at h3
  · simp only [true_iff]
    rw [ipListMatch_eq_true_iff] at h1
    push_neg at h1
    refine ⟨h1, Or.inr ?_⟩
    rcases allow with _ | ⟨e, rest⟩
    · rfl
    · simp at h3

/-- C6: an empty URI-bypass pattern keeps authentication enabled with no
error; a pattern whose compilation fails keeps authentication enabled and
returns the compile error alongside the decision; a pattern that compiles
and matches the URI disables authentication; one that compiles and does
not match keeps it enabled. -/
theorem authEnabled_spec (compile : String → Except String (String → Bool))
    (allowed uri : String) :
    (allowed = "" → AuthEnabled compile allowed uri = (true, none)) ∧
    (∀ e, allowed ≠ "" → compile allowed = .error e →
      AuthEnabled compile allowed uri = (true, some e)) ∧
    (∀ re, allowed ≠ "" → compile allowed = .ok re → re uri = true →
      AuthEnabled compile allowed uri = (false, none)) ∧
    (∀ re, allowed ≠ "" → compile allowed = .ok re → re uri = false →
      AuthEnabled compile allowed uri = (true, none)) := by
  refine ⟨fun h => ?_, fun e hne hc => ?_, fun re hne hc hmatch => ?_,
    fun re hne hc hmatch => ?_⟩ <;> simp [AuthEnabled, *]

/-- C6 witness: the three behaviours at concrete patterns — empty pattern,
a pattern that fails to compile (error "bad"), and a pattern matching the
URI. -/
theorem authEnabled_spec_witness :
    AuthEnabled (fun _ => .error "bad") "" "/app" = (true, none) ∧
    AuthEnabled (fun _ => .error "bad") "(" "/app" = (true, some "bad") ∧
    AuthEnabled (fun _ => .ok fun u => u == "/app") "^/app$" "/app" = (false, none) :=
  ⟨(authEnabled_spec (fun _ => .error "bad") "" "/app").1 rfl,
   (authEnabled_spec (fun _ => .error "bad") "(" "/app").2.1 "bad" (by decide) rfl,
   (authEnabled_spec (fun _ => .ok fun u => u == "/app") "^/app$" "/app").2.2.1
     (fun u => u == "/app") (by decide) rfl (by decide)⟩

/-- C8: `OAuthGroup` allows when the required-groups label is empty, allows
for any provider other than "generic" regardless of group contents, and
otherwise allows exactly when some comma-separated group of the identity
is accepted by the required-groups whitelist (an OR match). -/
theorem oauthGroup_spec (checkWhitelist : String → String → Bool)
    (requiredGroups provider oauthGroups : String) :
    (requiredGroups = "" →
      OAuthGroup checkWhitelist requiredGroups provider oauthGroups = true) ∧
    (provider ≠ "generic" →
      OAuthGroup checkWhitelist requiredGroups provider oauthGroups = true) ∧
    (requiredGroups ≠ "" → provider = "generic" →
      (OAuthGroup checkWhitelist requiredGroups provider oauthGroups = true ↔
        ∃ group ∈ splitComma oauthGroups,
          checkWhitelist requiredGroups group = true)) := by
  refine ⟨fun h => ?_, fun h => ?_, fun h1 h2 => ?_⟩
  · simp [OAuthGroup, h]
  · simp [OAuthGroup, h]
  · subst h2
    simp [OAuthGroup, h1, List.any_eq_true]

/-- C8 witness: with the whitelist "admins,devs" interpreted as exact
comma-separated membership, a "generic" identity in groups "users,devs" is
allowed (OR match), while provider "github" is allowed regardless, and an
empty required-groups label allows. -/
theorem oauthGroup_spec_witness :
    OAuthGroup (fun wl g => (splitComma wl).contains g) "" "generic" "x" = true ∧
    OAuthGroup (fun wl g => (splitComma wl).contains g) "admins,devs" "github" "x" = true ∧
    OAuthGroup (fun wl g => (splitComma wl).contains g) "admins,devs" "generic"
      "users,devs" = true :=
  ⟨(oauthGroup_spec (fun wl g => (splitComma wl).contains g) "" "generic" "x").1 rfl,
   (oauthGroup_spec (fun wl g => (splitComma wl).contains g) "admins,devs" "github"
      "x").2.1 (by decide),
   ((oauthGroup_spec (fun wl g => (splitComma wl).contains g) "admins,devs" "generic"
      "users,devs").2.2 (by decide) rfl).mpr ⟨"devs", by decide, by decide⟩⟩

end Tinyauth
